import Mathlib

/-!
Shallow embedding of code/article_learner.py.

The script trains three sklearn classifiers on an article feature matrix and
prints accuracy plus the top-10 most important features.  Python floats are
modelled as rationals, NumPy arrays as (nested) lists, and raised exceptions
as Except.error values carrying a fixed message per exception kind.  The
black-box library calls (train_test_split, GridSearchCV.fit, score) are modelled
by injectable outcomes, while the logic authored in the script itself
(variable_importance, the argpartition-based top-10 selection, the printing
loop, the driver) is translated directly.
-/

set_option maxHeartbeats 1000000

/-- NumPy arrays as they occur in the script: one- or two-dimensional. -/
inductive Arr (α : Type) : Type where
  | one : List α → Arr α
  | two : List (List α) → Arr α
deriving DecidableEq

/-- Result of a NumPy element access a[i]: a scalar entry (1-D array) or a
whole row (2-D array). -/
inductive NpElem (α : Type) : Type where
  | scalar : α → NpElem α
  | vec : List α → NpElem α
deriving DecidableEq

/-- Message of the ValueError raised by np.argpartition when kth is out of
bounds. -/
def kthOutOfBoundsMsg : String := "ValueError: kth out of bounds"

/-- Message of the TypeError raised by np.argpartition(None, -10), which
happens when variable_importance returned no value. -/
def noneTypeMsg : String := "TypeError: argpartition of NoneType"

/-- Message of the TypeError raised when a whole index row (a NumPy array) is
used as a key of the column-number mapping. -/
def unhashableMsg : String := "TypeError: unhashable key"

/-- Message of the IndexError raised by an out-of-bounds element access. -/
def indexErrMsg : String := "IndexError: index out of range"

/-- Message of the KeyError raised when a column index is missing from the
column-number mapping. -/
def keyErrMsg : String := "KeyError: column not found"

/-- NumPy normalisation of a possibly negative kth argument of argpartition
against the axis length n. -/
def normKth (kth : Int) (n : ℕ) : Int := if kth < 0 then kth + n else kth

/-- Stable ascending argsort of a list of scores: the indices 0..n-1 ordered
by score, ties by index.  This is one admissible concrete outcome of
np.argpartition; NumPy fixes only the partition contract (IsArgpartition
below), the order inside each block being implementation-defined. -/
def argsortAsc (v : List ℚ) : List ℕ :=
  (List.range v.length).mergeSort (fun i j =>
    decide (v.getD i 0 < v.getD j 0) || (decide (v.getD i 0 = v.getD j 0) && decide (i ≤ j)))

/-- Model of np.argpartition on a 1-D array, as called on line 30 of
article_learner.py.  It raises ValueError when the normalised kth index is
out of bounds (in particular whenever the array has fewer than 10 entries and
kth = -10); otherwise it returns a permutation of the indices satisfying the
partition contract, argsortAsc being the concrete representative. -/
def np_argpartition (v : List ℚ) (kth : Int) : Except String (List ℕ) :=
  if normKth kth v.length < 0 ∨ (v.length : Int) ≤ normKth kth v.length then
    Except.error kthOutOfBoundsMsg
  else
    Except.ok (argsortAsc v)

/-- The partition contract that np.argpartition guarantees for a 1-D input:
the output is a permutation of the index range, and every value placed before
position k is less than or equal to every value placed at or after position
k.  Nothing more is guaranteed about the order inside the two blocks. -/
def IsArgpartition (v : List ℚ) (k : ℕ) (p : List ℕ) : Prop :=
  p.Perm (List.range v.length) ∧
  ∀ i, i < k → ∀ j, j < p.length → k ≤ j →
    v.getD (p.getD i 0) 0 ≤ v.getD (p.getD j 0) 0

/-- np.argpartition applied to an array of either shape: on a 2-D array it
works along the last axis, partitioning each row independently and keeping
the shape. -/
def np_argpartition_arr : Arr ℚ → Int → Except String (Arr ℕ)
  | Arr.one v, kth => (np_argpartition v kth).map Arr.one
  | Arr.two rows, kth =>
    match rows.mapM (fun r => np_argpartition r kth) with
    | Except.error e => Except.error e
    | Except.ok ps => Except.ok (Arr.two ps)

/-- Python slice l[-n:]: the last n elements (the whole list when it is
shorter than n). -/
def lastN {α : Type} (n : ℕ) (l : List α) : List α := l.drop (l.length - n)

/-- The slice [-10:] of line 30 applied to either shape: on a 1-D array it
keeps the last 10 entries, on a 2-D array it keeps the last 10 rows. -/
def slice_last10 {α : Type} : Arr α → Arr α
  | Arr.one v => Arr.one (lastN 10 v)
  | Arr.two rows => Arr.two (lastN 10 rows)

/-- NumPy element access a[i]: an entry of a 1-D array, a row of a 2-D array,
an IndexError when i is out of bounds along the first axis. -/
def Arr.getRank {α : Type} : Arr α → ℕ → Except String (NpElem α)
  | Arr.one v, i =>
    match v.get? i with
    | some x => Except.ok (NpElem.scalar x)
    | none => Except.error indexErrMsg
  | Arr.two rows, i =>
    match rows.get? i with
    | some r => Except.ok (NpElem.vec r)
    | none => Except.error indexErrMsg

/-- A fitted estimator as probed by variable_importance: it may or may not
expose a linear coefficient attribute, and may or may not expose a tree
feature-importance attribute. -/
structure FittedEstimator where
  coef_ : Option (Arr ℚ)
  feature_importances_ : Option (List ℚ)

/-- Direct translation of variable_importance (lines 39-43): return the
coefficient attribute when present, else the feature-importance attribute
when present, else fall off the end of the function (Python returns None). -/
def variable_importance (estimator : FittedEstimator) : Option (Arr ℚ) :=
  match estimator.coef_ with
  | some c => some c
  | none =>
    match estimator.feature_importances_ with
    | some f => some (Arr.one f)
    | none => none

/-- Line 30 of train_model: top_10_vars = np.argpartition(var_imp, -10)[-10:].
A missing importance vector (None) makes np.argpartition raise a TypeError. -/
def selection_step (var_imp : Option (Arr ℚ)) : Except String (Arr ℚ × Arr ℕ) :=
  match var_imp with
  | none => Except.error noneTypeMsg
  | some a =>
    match np_argpartition_arr a (-10) with
    | Except.error e => Except.error e
    | Except.ok parts => Except.ok (a, slice_last10 parts)

/-- Line 34: feature_name = data.column_number[feature_col].  The mapping is
keyed by scalar column indices; a whole index row is not a usable key. -/
def lookupName (column_number : ℕ → Option String) : NpElem ℕ → Except String String
  | NpElem.scalar i =>
    match column_number i with
    | some s => Except.ok s
    | none => Except.error keyErrMsg
  | NpElem.vec _ => Except.error unhashableMsg

/-- One iteration of the printing loop (lines 32-36) at a given rank:
feature_col = top_10_vars[rank]; feature_name = data.column_number[feature_col];
feature_score = var_imp[feature_col]; print the line. -/
def print_rank (column_number : ℕ → Option String) (var_imp : Arr ℚ) (top_10_vars : Arr ℕ)
    (rank : ℕ) : Except String (ℕ × String × NpElem ℚ) :=
  match top_10_vars.getRank rank with
  | Except.error e => Except.error e
  | Except.ok feature_col =>
    match lookupName column_number feature_col with
    | Except.error e => Except.error e
    | Except.ok feature_name =>
      match feature_col with
      | NpElem.vec _ => Except.error unhashableMsg
      | NpElem.scalar i =>
        match var_imp.getRank i with
        | Except.error e => Except.error e
        | Except.ok feature_score => Except.ok (rank + 1, feature_name, feature_score)

/-- The printing loop run over a given list of ranks, stopping at the first
exception exactly as the Python for loop does. -/
def ranking_ranks (column_number : ℕ → Option String) (var_imp : Arr ℚ) (top_10_vars : Arr ℕ) :
    List ℕ → Except String (List (ℕ × String × NpElem ℚ))
  | [] => Except.ok []
  | rank :: rest =>
    match print_rank column_number var_imp top_10_vars rank with
    | Except.error e => Except.error e
    | Except.ok item =>
      match ranking_ranks column_number var_imp top_10_vars rest with
      | Except.error e => Except.error e
      | Except.ok items => Except.ok (item :: items)

/-- Lines 32-36: for rank in range(10). -/
def ranking_loop (column_number : ℕ → Option String) (var_imp : Arr ℚ) (top_10_vars : Arr ℕ) :
    Except String (List (ℕ × String × NpElem ℚ)) :=
  ranking_ranks column_number var_imp top_10_vars (List.range 10)

/-- Lines 29-36 of train_model taken together: extract the importance vector,
select the top-10 block, and run the printing loop. -/
def importance_step (column_number : ℕ → Option String) (estimator : FittedEstimator) :
    Except String (List (ℕ × String × NpElem ℚ)) :=
  match selection_step (variable_importance estimator) with
  | Except.error e => Except.error e
  | Except.ok (vi, top10) => ranking_loop column_number vi top10

/-- Modelled from the spec: the ArticleDB collaborator (file code/article_db.py
is not under src).  Per the spec it exposes a feature matrix X, a label vector
y, a column-index-to-name mapping, and is constructed from named boolean
feature toggles, at least domain_endings and author. -/
structure ArticleDB where
  domain_endings : Bool
  author : Bool
  X : List (List ℚ)
  y : List ℚ
  column_number : ℕ → Option String

/-- The three classifier types the driver passes to train_model. -/
inductive LearnerKind : Type where
  | decisionTree
  | multinomialNB
  | logisticRegression
deriving DecidableEq

/-- A hyperparameter grid: parameter name to candidate values. -/
abbrev Grid : Type := List (String × List ℚ)

/-- The object produced by the call learner() on line 20. -/
structure InstantiatedLearner where
  kind : LearnerKind
  init_args : List (String × ℚ)

/-- Line 20: learner = learner().  The classifier is instantiated with no
arguments. -/
def instantiate_learner (k : LearnerKind) : InstantiatedLearner := ⟨k, []⟩

/-- The candidate parameter assignments GridSearchCV enumerates for a grid:
the cartesian product of the per-parameter value lists.  The empty grid
yields the single empty assignment, i.e. the default configuration. -/
def parameterGridCandidates (g : Grid) : List (List (String × ℚ)) :=
  g.foldr
    (fun kv acc => (kv.2.map (fun v => (kv.1, v))).flatMap (fun pv => acc.map (fun c => pv :: c)))
    [[]]

/-- The search plan of GridSearchCV(learner, param_grid) on line 23: the base
estimator and the candidate configurations to be fitted. -/
structure GridSearchPlan where
  base : InstantiatedLearner
  candidates : List (List (String × ℚ))

/-- Line 23: GridSearchCV(learner, param_grid). -/
def gridSearchCV (l : InstantiatedLearner) (g : Grid) : GridSearchPlan :=
  ⟨l, parameterGridCandidates g⟩

/-- Number of test rows chosen by train_test_split for test_size=0.2: the
ceiling of n/5, per the documented sklearn semantics. -/
def n_test (n : ℕ) : ℕ := (n + 4) / 5

/-- Modelled from the documented semantics of the library call on line 22,
train_test_split(X, y, test_size=0.2): some shuffle of the n row indices is
cut into a train part and a test part, the test part holding ceil(0.2 * n)
rows.  No seed is fixed, so any shuffle may occur; the relation therefore
allows every permutation. -/
def IsTrainTestSplit (n : ℕ) (train test : List ℕ) : Prop :=
  (train ++ test).Perm (List.range n) ∧ test.length = n_test n

/-- The result of GridSearchCV(...).fit(...): best parameters, best
cross-validated score, best estimator. -/
structure Fitted where
  best_params : List (String × ℚ)
  best_score : ℚ
  best_estimator : FittedEstimator

/-- Outcomes of the black-box library calls made by train_model, injected as an
environment: the split of (X, y), the grid-search fit, and the test score.
Each may raise. -/
structure TrainEnv where
  learnerKind : LearnerKind
  split : List (List ℚ) → List ℚ → Except String (List ℕ × List ℕ)
  fit : Except String Fitted
  score : Except String ℚ

/-- One line written to standard output by train_model. -/
inductive OutLine : Type where
  | header : LearnerKind → List (String × ℚ) → OutLine
  | valAccuracy : ℚ → OutLine
  | testAccuracy : ℚ → OutLine
  | mostImportant : OutLine
  | feature : ℕ → String → NpElem ℚ → OutLine

/-- The body of train_model (lines 16-36): split, fit, score, print the three
header lines, then select and print the top-10 features.  Returns the lines
written so far and, when a library call or the importance step raised, the
uncaught exception. -/
def train_model_out (data : ArticleDB) (env : TrainEnv) : List OutLine × Option String :=
  match env.split data.X data.y with
  | Except.error e => ([], some e)
  | Except.ok _ =>
    match env.fit with
    | Except.error e => ([], some e)
    | Except.ok model =>
      match env.score with
      | Except.error e => ([], some e)
      | Except.ok accuracy =>
        match selection_step (variable_importance model.best_estimator) with
        | Except.error e =>
          ([OutLine.header env.learnerKind model.best_params,
            OutLine.valAccuracy model.best_score,
            OutLine.testAccuracy accuracy], some e)
        | Except.ok (vi, top10) =>
          match ranking_loop data.column_number vi top10 with
          | Except.error e =>
            ([OutLine.header env.learnerKind model.best_params,
              OutLine.valAccuracy model.best_score,
              OutLine.testAccuracy accuracy, OutLine.mostImportant], some e)
          | Except.ok ranking =>
            ([OutLine.header env.learnerKind model.best_params,
              OutLine.valAccuracy model.best_score,
              OutLine.testAccuracy accuracy, OutLine.mostImportant] ++
              ranking.map (fun r => OutLine.feature r.1 r.2.1 r.2.2), none)

/-- What one call of train_model leaves behind: the dataset object (the code
never assigns to any of its attributes, so it is passed through), the Python
return value (None, i.e. unit), the lines written to standard output, and the
uncaught exception if one was raised. -/
structure TrainResult where
  db : ArticleDB
  ret : Unit
  lines : List OutLine
  err : Option String

/-- train_model as a state-passing function: the dataset state it leaves is
the one it received, results go to standard output only. -/
def train_model (data : ArticleDB) (env : TrainEnv) : TrainResult :=
  { db := data, ret := (),
    lines := (train_model_out data env).1,
    err := (train_model_out data env).2 }

/-- What the driver leaves behind. -/
structure DriverResult where
  ret : Unit
  lines : List OutLine
  err : Option String

/-- The driver article_trainers (lines 46-54): construct the dataset, then run
train_model three times in sequence on it, each run receiving the dataset
state left by the previous one; the first uncaught exception terminates the
process. -/
def article_trainers (dbRes : Except String ArticleDB) (env1 env2 env3 : TrainEnv) :
    DriverResult :=
  match dbRes with
  | Except.error e => ⟨(), [], some e⟩
  | Except.ok articles =>
    let r1 := train_model articles env1
    match r1.err with
    | some e => ⟨(), r1.lines, some e⟩
    | none =>
      let r2 := train_model r1.db env2
      match r2.err with
      | some e => ⟨(), r1.lines ++ r2.lines, some e⟩
      | none =>
        let r3 := train_model r2.db env3
        ⟨(), r1.lines ++ r2.lines ++ r3.lines, r3.err⟩

/-- A step the driver takes: constructing the dataset or calling the trainer
on a dataset (identified by construction order) with a classifier and grid. -/
inductive DriverEvent : Type where
  | constructDB : Bool → Bool → DriverEvent
  | trainCall : ℕ → LearnerKind → Grid → DriverEvent
deriving DecidableEq

/-- The naive-Bayes grid of line 53: alpha over 0.1, 1.0, 10.0, 100.0. -/
def alphaGrid : Grid := [("alpha", [mkRat 1 10, 1, 10, 100])]

/-- The logistic-regression grid of line 54: C over 0.01, 0.1, 1, 10, 100. -/
def cGrid : Grid := [("C", [mkRat 1 100, mkRat 1 10, 1, 10, 100])]

/-- The literal call sequence of article_trainers (lines 46-54): one dataset
construction with domain_endings=False and author=False, then the three
train_model calls on that same dataset, in source order. -/
def article_trainers_calls : List DriverEvent :=
  [DriverEvent.constructDB false false,
   DriverEvent.trainCall 0 LearnerKind.decisionTree [],
   DriverEvent.trainCall 0 LearnerKind.multinomialNB alphaGrid,
   DriverEvent.trainCall 0 LearnerKind.logisticRegression cGrid]

/-- The column indices the loop prints, in print order (1-D case): the last
10 entries of the argpartition output. -/
def printedCols (p : List ℕ) : List ℕ := lastN 10 p

/-- The ordering property asserted for the printed top-10: strictly
descending scores, ties broken by original column index ascending. -/
def RankedDescendingTieIdx (v : List ℚ) (l : List ℕ) : Prop :=
  List.Chain' (fun a b => v.getD b 0 < v.getD a 0 ∨ (v.getD a 0 = v.getD b 0 ∧ a < b)) l

/-- A strictly increasing importance vector with 15 entries. -/
def c1v : List ℚ := [0, 1, 2, 3, 4, 5, 6, 7, 8, 9, 10, 11, 12, 13, 14]

/-- The identity permutation on 15 indices: a valid argpartition output for
c1v (it is fully sorted ascending, so in particular partitioned at 5). -/
def c1p : List ℕ := List.range 15

/-- A coefficient vector with one large negative coefficient (index 0) and
ten small positive ones (indices 1-10). -/
def negCoef : List ℚ := (-100) :: List.replicate 10 (mkRat 1 10)

/-! ### General facts about the argpartition contract -/

theorem isArgpartition_length {v : List ℚ} {k : ℕ} {p : List ℕ}
    (hp : IsArgpartition v k p) : p.length = v.length := by
  simpa using hp.1.length_eq

theorem isArgpartition_nodup {v : List ℚ} {k : ℕ} {p : List ℕ}
    (hp : IsArgpartition v k p) : p.Nodup :=
  hp.1.nodup_iff.mpr (List.nodup_range _)

/-- Core specification of the block kept by the slice [-10:]: on any
admissible argpartition output over at least 10 features, the printed columns
are 10 distinct valid indices, and every printed column scores at least as
high as every column left out. -/
theorem top_block_spec (v : List ℚ) (p : List ℕ) (hn : 10 ≤ v.length)
    (hp : IsArgpartition v (v.length - 10) p) :
    (printedCols p).length = 10 ∧ (printedCols p).Nodup ∧
    (∀ i ∈ printedCols p, i < v.length) ∧
    (∀ i ∈ printedCols p, ∀ j, j < v.length → j ∉ printedCols p →
      v.getD j 0 ≤ v.getD i 0) := by
  obtain ⟨hperm, hpart⟩ := hp
  have hlen : p.length = v.length := by simpa using hperm.length_eq
  have hdropId : printedCols p = p.drop (p.length - 10) := rfl
  refine ⟨?_, ?_, ?_, ?_⟩
  · rw [hdropId, List.length_drop]; omega
  · exact (List.drop_sublist _ _).nodup (hperm.nodup_iff.mpr (List.nodup_range _))
  · intro i hi
    exact List.mem_range.mp (hperm.mem_iff.mp (List.mem_of_mem_drop (hdropId ▸ hi)))
  · intro i hi j hj hjn
    rw [hdropId] at hi
    obtain ⟨a, ha, hpa⟩ := List.mem_drop_iff_getElem.mp hi
    have hjp : j ∈ p := hperm.mem_iff.mpr (List.mem_range.mpr hj)
    obtain ⟨b, hb, hpb⟩ := List.mem_iff_getElem.mp hjp
    have hbk : b < v.length - 10 := by
      by_contra hc
      push_neg at hc
      apply hjn
      rw [hdropId]
      refine List.mem_drop_iff_getElem.mpr ⟨b - (p.length - 10), by omega, ?_⟩
      have he : p.length - 10 + (b - (p.length - 10)) = b := by omega
      simp only [he]
      exact hpb
    have hle := hpart b (by omega) (p.length - 10 + a) (by omega) (by omega)
    rw [List.getD_eq_getElem _ _ (by omega : b < p.length)] at hle
    rw [List.getD_eq_getElem _ _ (by omega : p.length - 10 + a < p.length)] at hle
    rw [hpb, hpa] at hle
    exact hle

/-- C1 (amended): the top-10 selection yields exactly 10 distinct valid
column indices, each scoring at least as high as every unselected column. -/
theorem c1_top10_selection (v : List ℚ) (p : List ℕ) (hn : 10 ≤ v.length)
    (hp : IsArgpartition v (v.length - 10) p) :
    (printedCols p).length = 10 ∧ (printedCols p).Nodup ∧
    (∀ i ∈ printedCols p, i < v.length) ∧
    (∀ i ∈ printedCols p, ∀ j, j < v.length → j ∉ printedCols p →
      v.getD j 0 ≤ v.getD i 0) :=
  top_block_spec v p hn hp

/-- C1 counterexample: ascending printed order is admissible. -/
theorem c1_counterexample :
    IsArgpartition c1v (c1v.length - 10) c1p ∧
    ¬ RankedDescendingTieIdx c1v (printedCols c1p) := by
  constructor
  · exact ⟨List.Perm.refl _, by decide⟩
  · intro h
    unfold RankedDescendingTieIdx at h
    have hcols : printedCols c1p = [5, 6, 7, 8, 9, 10, 11, 12, 13, 14] := rfl
    rw [hcols, List.chain'_cons] at h
    rcases h.1 with h1 | h1
    · rw [show c1v.getD 6 0 = 6 from rfl, show c1v.getD 5 0 = 5 from rfl] at h1
      exact absurd h1 (by norm_num)
    · rw [show c1v.getD 5 0 = 5 from rfl, show c1v.getD 6 0 = 6 from rfl] at h1
      exact absurd h1.1 (by norm_num)

/-- C1 witness. -/
theorem c1_top10_selection_witness :
    10 ≤ c1v.length ∧ (printedCols c1p).length = 10 ∧ (printedCols c1p).Nodup := by
  have h := c1_top10_selection c1v c1p (by decide) ⟨List.Perm.refl _, by decide⟩
  exact ⟨by decide, h.1, h.2.1⟩

/-- The length of the coefficient vector negCoef. -/
theorem negCoef_length : negCoef.length = 11 := rfl

/-- Every index of negCoef other than 0 holds the small positive value. -/
theorem negCoef_getD_pos : ∀ j, j < 11 → j ≠ 0 → negCoef.getD j 0 = mkRat 1 10 := by decide

/-- Small-index membership fact for the literal list of indices 1..10. -/
theorem mem_oneToTen : ∀ x, x < 11 → x ≠ 0 → x ∈ ([1, 2, 3, 4, 5, 6, 7, 8, 9, 10] : List ℕ) := by
  decide

/-- Converse membership fact for the literal list of indices 1..10. -/
theorem oneToTen_mem : ∀ i, i ≤ 10 → 1 ≤ i → i ∈ ([1, 2, 3, 4, 5, 6, 7, 8, 9, 10] : List ℕ) := by
  decide

/-- C3: variable_importance hands the raw signed coefficient vector through
unchanged, and the selection ranks by those raw values: on negCoef, whose
index 0 holds a large negative coefficient and whose indices 1-10 hold small
positive ones, every admissible top-10 selection excludes index 0 and
includes all ten small positive columns. -/
theorem c3_raw_signed_ranking :
    (∀ (est : FittedEstimator) (c : Arr ℚ), est.coef_ = some c →
      variable_importance est = some c) ∧
    (∀ p : List ℕ, IsArgpartition negCoef (negCoef.length - 10) p →
      0 ∉ printedCols p ∧ ∀ i, 1 ≤ i → i ≤ 10 → i ∈ printedCols p) := by
  constructor
  · intro est c h
    unfold variable_importance
    rw [h]
  · intro p hp
    obtain ⟨hlen10, hnd, hmem, hdom⟩ := top_block_spec negCoef p (by decide) hp
    have h0notin : 0 ∉ printedCols p := by
      intro h0
      have hex : ∃ j, j < negCoef.length ∧ j ∉ printedCols p := by
        by_contra hc
        push_neg at hc
        have hsub : List.range negCoef.length ⊆ printedCols p := by
          intro x hx
          exact hc x (List.mem_range.mp hx)
        have hle := (List.subperm_of_subset (List.nodup_range _) hsub).length_le
        rw [List.length_range, hlen10, negCoef_length] at hle
        omega
      obtain ⟨j, hj, hjn⟩ := hex
      have hle := hdom 0 h0 j hj hjn
      have hj0 : j ≠ 0 := by
        intro he
        exact hjn (he ▸ h0)
      rw [negCoef_length] at hj
      rw [negCoef_getD_pos j hj hj0, show negCoef.getD 0 0 = -100 from rfl] at hle
      exact absurd hle (by decide)
    refine ⟨h0notin, ?_⟩
    intro i h1 h10
    have hsubT : printedCols p ⊆ [1, 2, 3, 4, 5, 6, 7, 8, 9, 10] := by
      intro x hx
      have hx11 : x < 11 := by
        have hm := hmem x hx
        rwa [negCoef_length] at hm
      exact mem_oneToTen x hx11 (fun he => h0notin (he ▸ hx))
    have hsp := List.subperm_of_subset hnd hsubT
    have hpermT := hsp.perm_of_length_le (by rw [hlen10]; exact Nat.le_refl _)
    exact hpermT.mem_iff.mpr (oneToTen_mem i h10 h1)

/-- C3 witness: the theorem applied to a concrete estimator carrying negCoef
and to the identity permutation of its 11 indices. -/
theorem c3_raw_signed_ranking_witness :
    variable_importance ⟨some (Arr.one negCoef), none⟩ = some (Arr.one negCoef) ∧
    0 ∉ printedCols (List.range 11) ∧ 5 ∈ printedCols (List.range 11) := by
  have h2 := c3_raw_signed_ranking.2 (List.range 11) ⟨List.Perm.refl _, by decide⟩
  exact ⟨c3_raw_signed_ranking.1 _ _ rfl, h2.1, h2.2 5 (by norm_num) (by norm_num)⟩

/-- C2: variable_importance returns the coefficient attribute unchanged when
present, else the feature-importance attribute unchanged when present, else
no value at all; and with no value the importance step of the trainer raises
instead of producing a ranking. -/
theorem c2_variable_importance_contract :
    (∀ (est : FittedEstimator) (c : Arr ℚ), est.coef_ = some c →
      variable_importance est = some c) ∧
    (∀ (est : FittedEstimator) (f : List ℚ), est.coef_ = none →
      est.feature_importances_ = some f → variable_importance est = some (Arr.one f)) ∧
    (∀ est : FittedEstimator, est.coef_ = none → est.feature_importances_ = none →
      variable_importance est = none) ∧
    (∀ (cn : ℕ → Option String) (est : FittedEstimator), variable_importance est = none →
      importance_step cn est = Except.error noneTypeMsg) := by
  refine ⟨?_, ?_, ?_, ?_⟩
  · intro est c h
    unfold variable_importance
    rw [h]
  · intro est f h1 h2
    unfold variable_importance
    rw [h1, h2]
  · intro est h1 h2
    unfold variable_importance
    rw [h1, h2]
  · intro cn est h
    unfold importance_step
    rw [h]
    rfl

/-- C2 witness: the four branches at concrete estimators. -/
theorem c2_variable_importance_contract_witness :
    variable_importance ⟨some (Arr.one [1, 2]), some [9]⟩ = some (Arr.one [1, 2]) ∧
    variable_importance ⟨none, some [3]⟩ = some (Arr.one [3]) ∧
    variable_importance ⟨none, none⟩ = none ∧
    importance_step (fun _ => none) ⟨none, none⟩ = Except.error noneTypeMsg := by
  refine ⟨c2_variable_importance_contract.1 _ _ rfl,
    c2_variable_importance_contract.2.1 _ _ rfl rfl,
    c2_variable_importance_contract.2.2.1 _ rfl rfl,
    c2_variable_importance_contract.2.2.2 _ _ rfl⟩

/-- np.argpartition with kth = -10 raises ValueError on arrays of fewer than
10 entries. -/
theorem np_argpartition_err (v : List ℚ) (h : v.length < 10) :
    np_argpartition v (-10) = Except.error kthOutOfBoundsMsg := by
  have hc : normKth (-10) v.length < 0 ∨ ((v.length : Int) ≤ normKth (-10) v.length) := by
    left
    unfold normKth
    rw [if_pos (by norm_num)]
    omega
  unfold np_argpartition
  rw [if_pos hc]

/-- C8: with fewer than 10 features the top-10 selection raises ValueError,
and train_model then terminates having printed only the three accuracy
lines, no feature ranking: the importance-printing step implicitly requires
at least 10 features. -/
theorem c8_min_feature_precondition (v : List ℚ) (cn : ℕ → Option String)
    (fi : Option (List ℚ)) (h : v.length < 10) :
    np_argpartition v (-10) = Except.error kthOutOfBoundsMsg ∧
    importance_step cn ⟨some (Arr.one v), fi⟩ = Except.error kthOutOfBoundsMsg ∧
    (∀ (data : ArticleDB) (env : TrainEnv) (s : List ℕ × List ℕ) (model : Fitted) (acc : ℚ),
      env.split data.X data.y = Except.ok s → env.fit = Except.ok model →
      env.score = Except.ok acc →
      model.best_estimator = ⟨some (Arr.one v), fi⟩ →
      (train_model data env).err = some kthOutOfBoundsMsg ∧
      (train_model data env).lines = [OutLine.header env.learnerKind model.best_params,
        OutLine.valAccuracy model.best_score, OutLine.testAccuracy acc]) := by
  have h1 : np_argpartition v (-10) = Except.error kthOutOfBoundsMsg := np_argpartition_err v h
  have h2 : selection_step (some (Arr.one v)) = Except.error kthOutOfBoundsMsg := by
    simp [selection_step, np_argpartition_arr, h1, Except.map]
  have h3 : importance_step cn ⟨some (Arr.one v), fi⟩ = Except.error kthOutOfBoundsMsg := by
    unfold importance_step
    rw [show variable_importance ⟨some (Arr.one v), fi⟩ = some (Arr.one v) from rfl, h2]
  refine ⟨h1, h3, ?_⟩
  intro data env s model acc hs hf hacc hest
  have hvi : variable_importance model.best_estimator = some (Arr.one v) := by
    rw [hest]
    rfl
  constructor
  · show (train_model_out data env).2 = _
    simp only [train_model_out, hs, hf, hacc, hvi, h2]
  · show (train_model_out data env).1 = _
    simp only [train_model_out, hs, hf, hacc, hvi, h2]

/-- C8 witness: a 3-feature importance vector. -/
theorem c8_min_feature_precondition_witness :
    np_argpartition ([1, 2, 3] : List ℚ) (-10) = Except.error kthOutOfBoundsMsg ∧
    importance_step (fun _ => none) ⟨some (Arr.one [1, 2, 3]), none⟩ =
      Except.error kthOutOfBoundsMsg ∧
    (train_model ⟨false, false, [], [], fun _ => none⟩
        ⟨LearnerKind.decisionTree, fun _ _ => Except.ok ([], []),
         Except.ok ⟨[], 0, ⟨some (Arr.one [1, 2, 3]), none⟩⟩, Except.ok 1⟩).err =
      some kthOutOfBoundsMsg := by
  have h := c8_min_feature_precondition [1, 2, 3] (fun _ => none) none (by decide)
  refine ⟨h.1, h.2.1, ?_⟩
  exact (h.2.2 _ _ ([], []) ⟨[], 0, ⟨some (Arr.one [1, 2, 3]), none⟩⟩ 1 rfl rfl rfl rfl).1

/-- np.argpartition with kth = -10 succeeds on arrays of at least 10 entries,
returning the representative concrete order. -/
theorem np_argpartition_ok (v : List ℚ) (h : 10 ≤ v.length) :
    np_argpartition v (-10) = Except.ok (argsortAsc v) := by
  have hc : ¬ (normKth (-10) v.length < 0 ∨ ((v.length : Int) ≤ normKth (-10) v.length)) := by
    unfold normKth
    rw [if_pos (by norm_num)]
    omega
  unfold np_argpartition
  rw [if_neg hc]

/-- Row-wise argpartition of a 2-D array succeeds when every row has at
least 10 columns. -/
theorem mapM_np_argpartition (rows : List (List ℚ)) (h : ∀ r ∈ rows, 10 ≤ r.length) :
    rows.mapM (fun r => np_argpartition r (-10)) = Except.ok (rows.map argsortAsc) := by
  induction rows with
  | nil => rfl
  | cons r rs ih =>
    rw [List.mapM_cons, np_argpartition_ok r (h r (List.mem_cons_self r rs)),
        ih (fun x hx => h x (List.mem_cons_of_mem r hx))]
    rfl

/-- Row-wise argpartition on a 2-D array with wide-enough rows. -/
theorem np_argpartition_arr_two (rows : List (List ℚ)) (h : ∀ r ∈ rows, 10 ≤ r.length) :
    np_argpartition_arr (Arr.two rows) (-10) = Except.ok (Arr.two (rows.map argsortAsc)) := by
  simp only [np_argpartition_arr]
  rw [mapM_np_argpartition rows h]

/-- The printing loop dies at rank 0 on every 2-D index array: the rank-0
access returns a whole row, which is not a usable key for the column-name
mapping. -/
theorem ranking_loop_two (cn : ℕ → Option String) (vi : Arr ℚ) (q : List ℕ)
    (ps : List (List ℕ)) :
    ranking_loop cn vi (Arr.two (q :: ps)) = Except.error unhashableMsg := by
  have hr : List.range 10 = 0 :: [1, 2, 3, 4, 5, 6, 7, 8, 9] := rfl
  unfold ranking_loop
  rw [hr]
  unfold ranking_ranks
  rw [show print_rank cn vi (Arr.two (q :: ps)) 0 = Except.error unhashableMsg from rfl]

/-- C4: a 2-D coefficient array flows through variable_importance unchanged;
argpartition plus the [-10:] slice then works on rows, not on column
indices; every rank at or beyond the number of rows is an out-of-bounds
access; and on a single-row coefficient array (binary linear classifier) the
top-10 printing step of the trainer never completes. -/
theorem c4_two_dim_coef :
    (∀ (est : FittedEstimator) (rows : List (List ℚ)), est.coef_ = some (Arr.two rows) →
      variable_importance est = some (Arr.two rows)) ∧
    (∀ rows : List (List ℚ), (∀ r ∈ rows, 10 ≤ r.length) →
      np_argpartition_arr (Arr.two rows) (-10) = Except.ok (Arr.two (rows.map argsortAsc)) ∧
      slice_last10 (Arr.two (rows.map argsortAsc)) =
        Arr.two (lastN 10 (rows.map argsortAsc))) ∧
    (∀ (parts : List (List ℕ)) (rank : ℕ), parts.length ≤ rank →
      Arr.getRank (Arr.two parts) rank = Except.error indexErrMsg) ∧
    (∀ (cn : ℕ → Option String) (fi : Option (List ℚ)) (r : List ℚ), 10 ≤ r.length →
      importance_step cn ⟨some (Arr.two [r]), fi⟩ = Except.error unhashableMsg) := by
  refine ⟨?_, ?_, ?_, ?_⟩
  · intro est rows hc
    unfold variable_importance
    rw [hc]
  · intro rows h
    exact ⟨np_argpartition_arr_two rows h, rfl⟩
  · intro parts rank hle
    simp only [Arr.getRank]
    rw [List.get?_eq_none.mpr hle]
  · intro cn fi r h
    unfold importance_step
    rw [show variable_importance ⟨some (Arr.two [r]), fi⟩ = some (Arr.two [r]) from rfl]
    have harr := np_argpartition_arr_two [r]
      (fun x hx => by rw [List.mem_singleton] at hx; rw [hx]; exact h)
    have hsel : selection_step (some (Arr.two [r])) =
        Except.ok (Arr.two [r], Arr.two [argsortAsc r]) := by
      simp only [selection_step]
      rw [harr]
      rfl
    rw [hsel]
    exact ranking_loop_two cn (Arr.two [r]) (argsortAsc r) []

/-- C4 witness: a single-row 2-D coefficient array with 11 columns, as a
binary linear classifier exposes. -/
theorem c4_two_dim_coef_witness :
    variable_importance ⟨some (Arr.two [[1, 2, 3, 4, 5, 6, 7, 8, 9, 10, 11]]), none⟩ =
      some (Arr.two [[1, 2, 3, 4, 5, 6, 7, 8, 9, 10, 11]]) ∧
    np_argpartition_arr (Arr.two ([[1, 2, 3, 4, 5, 6, 7, 8, 9, 10, 11]] : List (List ℚ))) (-10) =
      Except.ok (Arr.two (([[1, 2, 3, 4, 5, 6, 7, 8, 9, 10, 11]] : List (List ℚ)).map argsortAsc)) ∧
    Arr.getRank (Arr.two ([[0, 1]] : List (List ℕ))) 1 = Except.error indexErrMsg ∧
    importance_step (fun _ => none)
      ⟨some (Arr.two [[1, 2, 3, 4, 5, 6, 7, 8, 9, 10, 11]]), none⟩ =
      Except.error unhashableMsg := by
  refine ⟨c4_two_dim_coef.1 _ _ rfl,
    (c4_two_dim_coef.2.1 _ (by decide)).1,
    c4_two_dim_coef.2.2.1 _ 1 (by decide),
    c4_two_dim_coef.2.2.2 _ _ _ (by decide)⟩

/-- C5: every admissible outcome of the 80/20 split has a test partition of
ceil(0.2 n) rows, within one row of 0.2 n, and a training partition holding
exactly the remaining rows. -/
theorem c5_split_sizes (n : ℕ) (train test : List ℕ)
    (h : IsTrainTestSplit n train test) :
    n ≤ 5 * test.length ∧ 5 * test.length ≤ n + 4 ∧
    train.length + test.length = n ∧ train.length = n - test.length := by
  obtain ⟨hperm, htest⟩ := h
  have hlen : train.length + test.length = n := by
    have hl := hperm.length_eq
    rwa [List.length_append, List.length_range] at hl
  have ht : test.length = (n + 4) / 5 := htest
  refine ⟨?_, ?_, hlen, ?_⟩ <;> omega

/-- C5 witness: a 7-row dataset split into 5 train and 2 test rows. -/
theorem c5_split_sizes_witness :
    IsTrainTestSplit 7 [0, 1, 2, 3, 4] [5, 6] ∧
    7 ≤ 5 * ([5, 6] : List ℕ).length ∧
    ([0, 1, 2, 3, 4] : List ℕ).length + ([5, 6] : List ℕ).length = 7 := by
  have hsplit : IsTrainTestSplit 7 [0, 1, 2, 3, 4] [5, 6] := ⟨List.Perm.refl _, rfl⟩
  have h := c5_split_sizes 7 [0, 1, 2, 3, 4] [5, 6] hsplit
  exact ⟨hsplit, h.1, h.2.2.1⟩

/-- C6: the driver constructs exactly one dataset, with the domain-endings
and author toggles both disabled, and then issues exactly the three trainer
calls, in order, on that same dataset: decision tree with the empty grid,
multinomial naive Bayes with the alpha grid, logistic regression with the C
grid. -/
theorem c6_driver_calls :
    article_trainers_calls.length = 4 ∧
    article_trainers_calls.countP
      (fun ev => match ev with
        | DriverEvent.constructDB _ _ => true
        | DriverEvent.trainCall _ _ _ => false) = 1 ∧
    article_trainers_calls.get? 0 = some (DriverEvent.constructDB false false) ∧
    article_trainers_calls.get? 1 =
      some (DriverEvent.trainCall 0 LearnerKind.decisionTree []) ∧
    article_trainers_calls.get? 2 =
      some (DriverEvent.trainCall 0 LearnerKind.multinomialNB alphaGrid) ∧
    article_trainers_calls.get? 3 =
      some (DriverEvent.trainCall 0 LearnerKind.logisticRegression cGrid) :=
  ⟨rfl, rfl, rfl, rfl, rfl, rfl⟩

/-- C7: each classifier is instantiated with no arguments, and grid search
over the empty grid enumerates exactly one candidate configuration, the
empty assignment, i.e. the default configuration: no search happens. -/
theorem c7_empty_grid_default :
    (instantiate_learner LearnerKind.decisionTree).init_args = [] ∧
    (instantiate_learner LearnerKind.multinomialNB).init_args = [] ∧
    (instantiate_learner LearnerKind.logisticRegression).init_args = [] ∧
    gridSearchCV (instantiate_learner LearnerKind.decisionTree) [] =
      ⟨⟨LearnerKind.decisionTree, []⟩, [[]]⟩ ∧
    parameterGridCandidates [] = [[]] ∧
    (parameterGridCandidates []).length = 1 :=
  ⟨rfl, rfl, rfl, rfl, rfl, rfl⟩

/-- C9: neither train_model nor article_trainers handles any exception: an
error raised by the split, the grid-search fit, the scoring, or the
importance step becomes the uncaught error of train_model, and an error of
the dataset construction or of a training run becomes the uncaught error of
the driver; there is no retry, recovery or structured report. -/
theorem c9_errors_propagate :
    (∀ (data : ArticleDB) (env : TrainEnv) (msg : String),
      env.split data.X data.y = Except.error msg →
      (train_model data env).err = some msg ∧ (train_model data env).lines = []) ∧
    (∀ (data : ArticleDB) (env : TrainEnv) (s : List ℕ × List ℕ) (msg : String),
      env.split data.X data.y = Except.ok s → env.fit = Except.error msg →
      (train_model data env).err = some msg) ∧
    (∀ (data : ArticleDB) (env : TrainEnv) (s : List ℕ × List ℕ) (model : Fitted)
      (msg : String),
      env.split data.X data.y = Except.ok s → env.fit = Except.ok model →
      env.score = Except.error msg → (train_model data env).err = some msg) ∧
    (∀ (data : ArticleDB) (env : TrainEnv) (s : List ℕ × List ℕ) (model : Fitted)
      (acc : ℚ) (msg : String),
      env.split data.X data.y = Except.ok s → env.fit = Except.ok model →
      env.score = Except.ok acc →
      importance_step data.column_number model.best_estimator = Except.error msg →
      (train_model data env).err = some msg) ∧
    (∀ (env1 env2 env3 : TrainEnv) (msg : String),
      article_trainers (Except.error msg) env1 env2 env3 = ⟨(), [], some msg⟩) ∧
    (∀ (data : ArticleDB) (env1 env2 env3 : TrainEnv) (msg : String),
      (train_model data env1).err = some msg →
      (article_trainers (Except.ok data) env1 env2 env3).err = some msg) := by
  refine ⟨?_, ?_, ?_, ?_, ?_, ?_⟩
  · intro data env msg h
    constructor
    · show (train_model_out data env).2 = some msg
      simp only [train_model_out, h]
    · show (train_model_out data env).1 = []
      simp only [train_model_out, h]
  · intro data env s msg hs hf
    show (train_model_out data env).2 = some msg
    simp only [train_model_out, hs, hf]
  · intro data env s model msg hs hf hsc
    show (train_model_out data env).2 = some msg
    simp only [train_model_out, hs, hf, hsc]
  · intro data env s model acc msg hs hf hsc himp
    show (train_model_out data env).2 = some msg
    rcases hsel : selection_step (variable_importance model.best_estimator) with e | pr
    · simp only [importance_step, hsel, Except.error.injEq] at himp
      subst himp
      simp only [train_model_out, hs, hf, hsc, hsel]
    · obtain ⟨vi, top10⟩ := pr
      simp only [importance_step, hsel] at himp
      simp only [train_model_out, hs, hf, hsc, hsel, himp]
  · intro env1 env2 env3 msg
    rfl
  · intro data env1 env2 env3 msg h
    show (article_trainers (Except.ok data) env1 env2 env3).err = some msg
    simp only [article_trainers, h]

/-- C9 witness: each propagation branch at a concrete dataset and
environment. -/
theorem c9_errors_propagate_witness :
    (train_model ⟨false, false, [], [], fun _ => none⟩
      ⟨LearnerKind.decisionTree, fun _ _ => Except.error "se",
       Except.ok ⟨[], 0, ⟨none, none⟩⟩, Except.ok 0⟩).err = some "se" ∧
    (train_model ⟨false, false, [], [], fun _ => none⟩
      ⟨LearnerKind.decisionTree, fun _ _ => Except.ok ([], []), Except.error "fe",
       Except.ok 0⟩).err = some "fe" ∧
    (train_model ⟨false, false, [], [], fun _ => none⟩
      ⟨LearnerKind.decisionTree, fun _ _ => Except.ok ([], []),
       Except.ok ⟨[], 0, ⟨none, none⟩⟩, Except.error "sce"⟩).err = some "sce" ∧
    (train_model ⟨false, false, [], [], fun _ => none⟩
      ⟨LearnerKind.decisionTree, fun _ _ => Except.ok ([], []),
       Except.ok ⟨[], 0, ⟨none, none⟩⟩, Except.ok 0⟩).err = some noneTypeMsg ∧
    article_trainers (Except.error "dbe")
      ⟨LearnerKind.decisionTree, fun _ _ => Except.ok ([], []),
       Except.ok ⟨[], 0, ⟨none, none⟩⟩, Except.ok 0⟩
      ⟨LearnerKind.decisionTree, fun _ _ => Except.ok ([], []),
       Except.ok ⟨[], 0, ⟨none, none⟩⟩, Except.ok 0⟩
      ⟨LearnerKind.decisionTree, fun _ _ => Except.ok ([], []),
       Except.ok ⟨[], 0, ⟨none, none⟩⟩, Except.ok 0⟩ = ⟨(), [], some "dbe"⟩ ∧
    (article_trainers (Except.ok ⟨false, false, [], [], fun _ => none⟩)
      ⟨LearnerKind.decisionTree, fun _ _ => Except.error "se",
       Except.ok ⟨[], 0, ⟨none, none⟩⟩, Except.ok 0⟩
      ⟨LearnerKind.decisionTree, fun _ _ => Except.ok ([], []),
       Except.ok ⟨[], 0, ⟨none, none⟩⟩, Except.ok 0⟩
      ⟨LearnerKind.decisionTree, fun _ _ => Except.ok ([], []),
       Except.ok ⟨[], 0, ⟨none, none⟩⟩, Except.ok 0⟩).err = some "se" := by
  refine ⟨(c9_errors_propagate.1 _ _ "se" rfl).1,
    c9_errors_propagate.2.1 _ _ ([], []) "fe" rfl rfl,
    c9_errors_propagate.2.2.1 _ _ ([], []) ⟨[], 0, ⟨none, none⟩⟩ "sce" rfl rfl rfl,
    c9_errors_propagate.2.2.2.1 _ _ ([], []) ⟨[], 0, ⟨none, none⟩⟩ 0 noneTypeMsg
      rfl rfl rfl rfl,
    c9_errors_propagate.2.2.2.2.1 _ _ _ "dbe",
    c9_errors_propagate.2.2.2.2.2 _ _ _ _ "se" (c9_errors_propagate.1 _ _ "se" rfl).1⟩

/-- C10: train_model leaves the dataset object exactly as it received it and
returns no value; its observable output depends on the dataset only through
X, y and the column-name mapping (the attributes it reads); and across the
three sequential driver runs the dataset state stays the original one, the
driver returning no value either. -/
theorem c10_frame_readonly :
    (∀ (data : ArticleDB) (env : TrainEnv),
      (train_model data env).db = data ∧ (train_model data env).ret = ()) ∧
    (∀ (data data2 : ArticleDB) (env : TrainEnv), data2.X = data.X → data2.y = data.y →
      data2.column_number = data.column_number →
      (train_model data2 env).lines = (train_model data env).lines ∧
      (train_model data2 env).err = (train_model data env).err) ∧
    (∀ (data : ArticleDB) (env1 env2 env3 : TrainEnv),
      (train_model data env1).db = data ∧
      (train_model (train_model data env1).db env2).db = data ∧
      (train_model (train_model (train_model data env1).db env2).db env3).db = data ∧
      (article_trainers (Except.ok data) env1 env2 env3).ret = ()) := by
  refine ⟨fun data env => ⟨rfl, rfl⟩, ?_, fun data env1 env2 env3 => ⟨rfl, rfl, rfl, rfl⟩⟩
  intro data data2 env hX hY hcn
  constructor
  · show (train_model_out data2 env).1 = (train_model_out data env).1
    simp only [train_model_out, hX, hY, hcn]
  · show (train_model_out data2 env).2 = (train_model_out data env).2
    simp only [train_model_out, hX, hY, hcn]

/-- C10 witness: two datasets differing only in the author toggle produce
identical trainer output, and the dataset state is preserved. -/
theorem c10_frame_readonly_witness :
    (train_model ⟨false, false, [[1]], [1], fun _ => some "col"⟩
      ⟨LearnerKind.decisionTree, fun _ _ => Except.ok ([], []),
       Except.ok ⟨[], 0, ⟨none, none⟩⟩, Except.ok 0⟩).db =
      ⟨false, false, [[1]], [1], fun _ => some "col"⟩ ∧
    (train_model ⟨false, true, [[1]], [1], fun _ => some "col"⟩
      ⟨LearnerKind.decisionTree, fun _ _ => Except.ok ([], []),
       Except.ok ⟨[], 0, ⟨none, none⟩⟩, Except.ok 0⟩).lines =
    (train_model ⟨false, false, [[1]], [1], fun _ => some "col"⟩
      ⟨LearnerKind.decisionTree, fun _ _ => Except.ok ([], []),
       Except.ok ⟨[], 0, ⟨none, none⟩⟩, Except.ok 0⟩).lines := by
  refine ⟨(c10_frame_readonly.1 _ _).1,
    (c10_frame_readonly.2.1 ⟨false, false, [[1]], [1], fun _ => some "col"⟩
      ⟨false, true, [[1]], [1], fun _ => some "col"⟩ _ rfl rfl rfl).1⟩
